import Mathlib

/-!
Verification of the reduce-scan benchmark (src/reduce-scan/main.cc).

Shallow embedding conventions:
* 32-bit floats are modelled as exact rationals (ℚ); the claims settled here
  concern the algebraic structure of the computations (which additions are
  performed, in which grouping), not IEEE rounding.
* Time points are integer tick counts (ℤ); `bandwidth` receives them as the
  already-cast microsecond counts of `duration_cast<microseconds>(..).count()`.
* The OpenCL device-side kernel `reduce` (main.cc lines 128-160) is embedded
  under its idealized sequential semantics: every work-group completes its
  intra-group tree fold and publishes its partial sum, then the single work
  item with global id 0 performs the serial cross-group combine.
-/

namespace ReduceScan

open Finset

/-- One halving step of the in-kernel tree fold (main.cc lines 142-147): each
local thread `t < offset` adds `buff[t + offset]` into `buff[t]`; all other
slots are untouched. -/
def foldStep (o : ℕ) (b : ℕ → ℚ) : ℕ → ℚ :=
  fun t => if t < o then b t + b (t + o) else b t

/-- The kernel loop `for (offset = m/2; offset > 0; offset /= 2)` applied to
the local buffer, starting from a given offset (main.cc lines 142-147). -/
def foldLoop (o : ℕ) (b : ℕ → ℚ) : ℕ → ℚ :=
  if h : o = 0 then b else foldLoop (o / 2) (foldStep o b)
termination_by o
decreasing_by exact Nat.div_lt_self (Nat.pos_of_ne_zero h) one_lt_two

/-- The initial local buffer of work-group `k`: `buff[t] = a[k * m + t]` with
the dispatched local size m = 128 (main.cc line 138, line 86). -/
def buffInit (a : ℕ → ℚ) (k : ℕ) : ℕ → ℚ :=
  fun t => a (k * 128 + t)

/-- The partial sum work-group `k` publishes to `result[k]` (main.cc lines
148-150): slot 0 of the local buffer after the tree fold starting at offset
m / 2 = 64. -/
def groupSum (a : ℕ → ℚ) (k : ℕ) : ℚ :=
  foldLoop 64 (buffInit a k) 0

/-- The serial left-to-right accumulation `sum = 0; for (j = 0; j < l; j++)
sum += f j` (main.cc lines 155-157; also the shape of the host reference sum). -/
def serialSumUpTo (f : ℕ → ℚ) : ℕ → ℚ
  | 0 => 0
  | j + 1 => serialSumUpTo f j + f j

/-- The cross-group combine performed by the single work item with global id 0
(main.cc lines 154-159): it reads all `l` published partial sums, then
overwrites slot 0 with their total; every other slot is untouched. -/
def combine (l : ℕ) (res : ℕ → ℚ) : ℕ → ℚ :=
  fun j => if j = 0 then serialSumUpTo res l else res j

/-- The partial-sums buffer after the whole reduce kernel ran over an input of
length `n` with group size 128: group `k` published `groupSum a k`, then the
combine rewrote slot 0. The number of groups is `n / 128` (main.cc line 73,
line 86). -/
def reduceKernel (a : ℕ → ℚ) (n : ℕ) : ℕ → ℚ :=
  combine (n / 128) (fun k => groupSum a k)

/-- Modelled from the spec: the host-side serial reference `reduce` comes from
the excluded linear-algebra collaborator (`linear-algebra.hh`, not present
under src/); per the spec it is the strict left-to-right serial sum of the
input elements. -/
def reduceRef (a : ℕ → ℚ) (n : ℕ) : ℚ :=
  serialSumUpTo a n

/-- The validation tolerance `1e3` of main.cc line 92. -/
def tolerance : ℚ := 1000

/-- The validation step of `profile_reduce` (main.cc lines 91-96): compare the
kernel result read from slot 0 with the host reference; when the absolute
difference exceeds the tolerance, fail with an error carrying both values
(computed first, expected second), otherwise proceed. -/
def validate (s x : ℚ) : Except (ℚ × ℚ) Unit :=
  if |x - s| > tolerance then Except.error (s, x) else Except.ok ()

/-- The `bandwidth` function (main.cc lines 27-32): given an element count `n`
and two time points, compute the elapsed microsecond count; report 0 when it is
zero, else `((n+n+n) * sizeof(float) * 1e-9) / (dt * 1e-6)` with
`sizeof(float) = 4`. -/
def bandwidth (n : ℤ) (t0 t1 : ℤ) : ℚ :=
  if t1 - t0 = 0 then 0
  else (((n : ℚ) + n + n) * 4 * (1 / 1000000000)) / (((t1 - t0 : ℤ) : ℚ) * (1 / 1000000))

/-- Two's-complement wrap-around of a 32-bit signed int: the value in
[-2^31, 2^31) congruent to x modulo 2^32. -/
def wrap32 (x : ℤ) : ℤ := (x + 2 ^ 31) % 2 ^ 32 - 2 ^ 31

/-- The element-count argument `profile_reduce` actually passes to `bandwidth`
(main.cc line 99): the 32-bit int expression `n*n + n + n`, not `n`. Each
operation is performed in 32-bit int arithmetic, so each intermediate result
wraps; at the configured n = 10*1024*1024 (line 122) the square overflows and
the argument collapses to 2n = 20971520. -/
def bwArg (n : ℤ) : ℤ := wrap32 (wrap32 (wrap32 (n * n) + n) + n)

/-- The two bandwidth values `profile_reduce` reports (main.cc line 99): the
host-compute interval `[t0, t1]` and the kernel-execution interval `[t2, t3]`,
both with the `bwArg` element count. -/
def profileBandwidths (n t0 t1 t2 t3 : ℤ) : ℚ × ℚ :=
  (bandwidth (bwArg n) t0 t1, bandwidth (bwArg n) t2 t3)

/-- The five durations of one report row. -/
structure Durations where
  omp : ℤ
  total : ℤ
  copyIn : ℤ
  kernelExec : ℤ
  copyOut : ℤ
deriving DecidableEq

/-- The five durations `profile_reduce` reports (main.cc line 98): in order
t1-t0, t4-t1, t2-t1, t3-t2, t4-t3, from the five timestamps taken at lines
77, 79, 85, 88, 90. -/
def profileDurations (t0 t1 t2 t3 t4 : ℤ) : Durations :=
  ⟨t1 - t0, t4 - t1, t2 - t1, t3 - t2, t4 - t3⟩

/-- The pre-dispatch setup path of `profile_reduce` (main.cc lines 70-86): the
source performs no divisibility validation of `n` against the group size; it
unconditionally sizes the partial-sums buffer at the truncating integer
quotient `n / loc_sz` (line 73) and proceeds to the kernel dispatch. -/
def profileSetup (n : ℕ) : Except String ℕ :=
  Except.ok (n / 128)

/-- Outcome of the benchmarking body once the program built successfully:
clean completion, an accelerator error (operation name and status code), or a
standard error with a message (main.cc lines 200-210). -/
inductive RunOutcome where
  | ok : RunOutcome
  | clError (op : String) (code : ℤ) : RunOutcome
  | stdError (msg : String) : RunOutcome
deriving DecidableEq

/-- The environment `main` runs against: how many accelerator platforms were
discovered, the per-candidate-device build logs, whether the kernel program
built, the operation/status of the build failure when it did not, and the
outcome of the benchmarking body. -/
structure MainEnv where
  numPlatforms : ℕ
  buildLogs : List String
  buildOk : Bool
  buildErrOp : String
  buildErrCode : ℤ
  runOutcome : RunOutcome

/-- The diagnostic line of the cl::Error handler (main.cc line 203). -/
def clDiag (op : String) (code : ℤ) : String :=
  "OpenCL error in " ++ op ++ "(" ++ toString code ++ ")"

/-- The control flow of `main` (main.cc lines 169-213): exit 1 with a message
when no platform is found; on build failure print every candidate device build
log, then the rethrown cl::Error is caught and reported, exit 1; a cl::Error or
std::exception from the benchmarking body is reported, exit 1; otherwise exit 0.
Returns the exit code and the diagnostic messages printed to stderr. -/
def mainRun (e : MainEnv) : ℕ × List String :=
  if e.numPlatforms = 0 then (1, ["Unable to find OpenCL platforms"])
  else if e.buildOk then
    match e.runOutcome with
    | RunOutcome.ok => (0, [])
    | RunOutcome.clError op c => (1, [clDiag op c])
    | RunOutcome.stdError m => (1, [m])
  else (1, e.buildLogs ++ [clDiag e.buildErrOp e.buildErrCode])

/-- An input vector of length `n` with its entries permuted by `σ`; positions
past `n` (never read by the kernel when 128 divides `n`) are left unchanged. -/
def permuteInput (n : ℕ) (σ : Equiv.Perm (Fin n)) (a : ℕ → ℚ) : ℕ → ℚ :=
  fun i => if h : i < n then a ((σ ⟨i, h⟩ : Fin n) : ℕ) else a i

theorem foldLoop_zero (b : ℕ → ℚ) : foldLoop 0 b = b := by
  rw [foldLoop]
  simp

theorem foldLoop_ne_zero (o : ℕ) (b : ℕ → ℚ) (h : o ≠ 0) :
    foldLoop o b = foldLoop (o / 2) (foldStep o b) := by
  rw [foldLoop]
  simp [h]

theorem foldLoop_two_pow (k : ℕ) (b : ℕ → ℚ) :
    foldLoop (2 ^ k) b 0 = ∑ t ∈ Finset.range (2 ^ (k + 1)), b t := by
  induction k generalizing b with
  | zero =>
    rw [pow_zero, foldLoop_ne_zero 1 b one_ne_zero]
    norm_num [foldLoop_zero, foldStep, Finset.sum_range_succ]
  | succ k ih =>
    have h2 : (2 : ℕ) ^ (k + 1) ≠ 0 := by positivity
    have hdiv : (2 : ℕ) ^ (k + 1) / 2 = 2 ^ k := by
      rw [pow_succ, Nat.mul_div_cancel _ (by norm_num)]
    rw [foldLoop_ne_zero _ _ h2, hdiv, ih]
    have hsplit : (2 : ℕ) ^ (k + 1 + 1) = 2 ^ (k + 1) + 2 ^ (k + 1) := by
      rw [pow_succ]; ring
    have hstep : ∀ t ∈ Finset.range (2 ^ (k + 1)),
        foldStep (2 ^ (k + 1)) b t = b t + b (2 ^ (k + 1) + t) := by
      intro t ht
      rw [Finset.mem_range] at ht
      simp [foldStep, ht, Nat.add_comm]
    rw [Finset.sum_congr rfl hstep, Finset.sum_add_distrib, hsplit,
      Finset.sum_range_add]

theorem serialSumUpTo_eq (f : ℕ → ℚ) (n : ℕ) :
    serialSumUpTo f n = ∑ t ∈ Finset.range n, f t := by
  induction n with
  | zero => simp [serialSumUpTo]
  | succ n ih => rw [serialSumUpTo, ih, Finset.sum_range_succ]

theorem groupSum_eq (a : ℕ → ℚ) (k : ℕ) :
    groupSum a k = ∑ t ∈ Finset.range 128, a (k * 128 + t) := by
  have h64 : (64 : ℕ) = 2 ^ 6 := by norm_num
  rw [groupSum, h64, foldLoop_two_pow 6 (buffInit a k)]
  norm_num [buffInit]

theorem sum_groupSum (a : ℕ → ℚ) (l : ℕ) :
    ∑ k ∈ Finset.range l, ∑ t ∈ Finset.range 128, a (k * 128 + t)
      = ∑ i ∈ Finset.range (l * 128), a i := by
  induction l with
  | zero => simp
  | succ l ih =>
    rw [Finset.sum_range_succ, ih, Nat.succ_mul, Finset.sum_range_add]

theorem reduceKernel_eq_sum (a : ℕ → ℚ) (n : ℕ) (hd : 128 ∣ n) :
    reduceKernel a n 0 = ∑ i ∈ Finset.range n, a i := by
  have h0 : reduceKernel a n 0 = serialSumUpTo (fun k => groupSum a k) (n / 128) := by
    simp [reduceKernel, combine]
  rw [h0, serialSumUpTo_eq,
    Finset.sum_congr rfl (fun k _ => groupSum_eq a k),
    sum_groupSum a (n / 128), Nat.div_mul_cancel hd]

theorem sum_permuteInput (n : ℕ) (σ : Equiv.Perm (Fin n)) (a : ℕ → ℚ) :
    ∑ i ∈ Finset.range n, permuteInput n σ a i = ∑ i ∈ Finset.range n, a i := by
  rw [← Fin.sum_univ_eq_sum_range (fun i => permuteInput n σ a i) n,
    ← Fin.sum_univ_eq_sum_range (fun i => a i) n]
  have h1 : ∀ i : Fin n, permuteInput n σ a (i : ℕ) = a ((σ i : Fin n) : ℕ) := by
    intro i
    simp [permuteInput, i.isLt]
  rw [Finset.sum_congr rfl (fun i _ => h1 i)]
  exact Equiv.sum_comp σ (fun j : Fin n => a (j : ℕ))

/-- C1: for every input vector whose length N is a positive multiple of the
work-group size G = 128, the reduce kernel (intra-group tree fold followed by
the single-thread cross-group combine) leaves in partial-sums slot 0 the sum of
all N elements; in the exact-arithmetic model the result equals the serial
reference sum, hence lies within any nonnegative tolerance proportional to
N times machine epsilon relative to that reference sum. -/
theorem claim_C1_reduce_correct (n : ℕ) (a : ℕ → ℚ) (eps : ℚ)
    (hn : 0 < n) (hd : 128 ∣ n) (heps : 0 ≤ eps) :
    |reduceKernel a n 0 - reduceRef a n| ≤ (n : ℚ) * eps * |reduceRef a n| := by
  have h : reduceKernel a n 0 = reduceRef a n := by
    rw [reduceKernel_eq_sum a n hd, reduceRef, serialSumUpTo_eq]
  rw [h, sub_self, abs_zero]
  positivity

theorem claim_C1_reduce_correct_witness :
    0 < 128 ∧ 128 ∣ 128 ∧ (0 : ℚ) ≤ 1 ∧
      |reduceKernel (fun _ => 1) 128 0 - reduceRef (fun _ => 1) 128|
        ≤ ((128 : ℕ) : ℚ) * 1 * |reduceRef (fun _ => 1) 128| :=
  ⟨by norm_num, by norm_num, by norm_num,
    claim_C1_reduce_correct 128 (fun _ => 1) 1 (by norm_num) (by norm_num) (by norm_num)⟩

/-- C2 counterexample: the claim says the reported bandwidth is exactly
(3 × N × elementSize) / elapsedTime with N the input-vector length, but
profile_reduce passes n*n + n + n to bandwidth (main.cc line 99). At N = 2
with a 1-microsecond host interval the reported value is 0.096, not the 0.024
given by the formula of the claim. -/
theorem claim_C2_counterexample :
    (profileBandwidths 2 0 1 0 1).1
      ≠ (3 * 2 * 4 * (1 / 1000000000) : ℚ) / ((((1 : ℤ) - 0 : ℤ) : ℚ) * (1 / 1000000)) := by
  norm_num [profileBandwidths, bandwidth, bwArg, wrap32]

/-- C2 (amended): for both the host-compute interval and the kernel-execution
interval, profile_reduce reports the bandwidth as
(3 × wrap32(N² + 2N) × elementSize × 1e-9) / (dt × 1e-6), where the argument
N² + 2N is evaluated in wrapping 32-bit int arithmetic, dt is the elapsed
microsecond count and elementSize is sizeof(float) = 4 (0 when dt is zero);
at the configured N = 10485760 (main.cc line 122) the wrapped argument is
2N = 20971520. -/
theorem claim_C2_bandwidth_formula (n t0 t1 t2 t3 : ℤ)
    (h01 : t1 - t0 ≠ 0) (h23 : t3 - t2 ≠ 0) :
    (profileBandwidths n t0 t1 t2 t3).1
        = (3 * (bwArg n : ℚ) * 4 * (1 / 1000000000))
          / (((t1 - t0 : ℤ) : ℚ) * (1 / 1000000))
      ∧ (profileBandwidths n t0 t1 t2 t3).2
        = (3 * (bwArg n : ℚ) * 4 * (1 / 1000000000))
          / (((t3 - t2 : ℤ) : ℚ) * (1 / 1000000))
      ∧ bwArg 10485760 = 20971520 := by
  refine ⟨?_, ?_, ?_⟩
  · rw [profileBandwidths]
    simp only [bandwidth, if_neg h01]
    congr 1
    ring
  · rw [profileBandwidths]
    simp only [bandwidth, if_neg h23]
    congr 1
    ring
  · norm_num [bwArg, wrap32]

theorem claim_C2_bandwidth_formula_witness :
    ((1 : ℤ) - 0 ≠ 0) ∧ ((3 : ℤ) - 2 ≠ 0) ∧
      ((profileBandwidths 2 0 1 2 3).1
          = (3 * (bwArg 2 : ℚ) * 4 * (1 / 1000000000))
            / ((((1 : ℤ) - 0 : ℤ) : ℚ) * (1 / 1000000))
        ∧ (profileBandwidths 2 0 1 2 3).2
          = (3 * (bwArg 2 : ℚ) * 4 * (1 / 1000000000))
            / ((((3 : ℤ) - 2 : ℤ) : ℚ) * (1 / 1000000))
        ∧ bwArg 10485760 = 20971520) :=
  ⟨by norm_num, by norm_num,
    claim_C2_bandwidth_formula 2 0 1 2 3 (by norm_num) (by norm_num)⟩

/-- C3: validation raises an error exactly when the absolute difference between
the kernel result s and the expected value x exceeds the tolerance; the error
carries both values (computed first, expected second); within tolerance the
validation succeeds and the run proceeds. -/
theorem claim_C3_validation (s x : ℚ) :
    ((∃ p, validate s x = Except.error p) ↔ |x - s| > tolerance)
      ∧ (∀ p, validate s x = Except.error p → p = (s, x))
      ∧ (|x - s| ≤ tolerance → validate s x = Except.ok ()) := by
  by_cases h : |x - s| > tolerance
  · rw [validate, if_pos h]
    refine ⟨⟨fun _ => h, fun _ => ⟨(s, x), rfl⟩⟩, ?_, ?_⟩
    · intro p hp
      injection hp with h2
      exact h2.symm
    · intro hle
      exact absurd h (not_lt.mpr hle)
  · rw [validate, if_neg h]
    refine ⟨⟨?_, fun hgt => absurd hgt h⟩, ?_, fun _ => rfl⟩
    · rintro ⟨p, hp⟩
      simp at hp
    · intro p hp
      simp at hp

theorem claim_C3_validation_witness :
    ((∃ p, validate 0 2000 = Except.error p) ↔ |(2000 : ℚ) - 0| > tolerance)
      ∧ (∀ p, validate 0 2000 = Except.error p → p = (0, 2000))
      ∧ (|(2000 : ℚ) - 0| ≤ tolerance → validate 0 2000 = Except.ok ()) :=
  claim_C3_validation 0 2000

/-- C5: contrary to the claim, profile_reduce performs no divisibility check
before dispatch: at N = 1000 (which 128 does not divide) its pre-dispatch
setup succeeds, sizing the partial-sums buffer at the truncated quotient 7,
and the code proceeds to enqueue the kernel. -/
theorem claim_C5_no_divisibility_check :
    profileSetup 1000 = Except.ok 7 ∧ 1000 % 128 ≠ 0 ∧ 7 * 128 < 1000 :=
  ⟨rfl, by norm_num, by norm_num⟩

/-- C6: with monotone timestamps t0 ≤ t1 ≤ t2 ≤ t3 ≤ t4 (successive clock
reads), each of the five reported durations is nonnegative, and copy-in plus
kernel-execution plus copy-out is at most the total accelerator-phase
duration. -/
theorem claim_C6_durations (t0 t1 t2 t3 t4 : ℤ)
    (h01 : t0 ≤ t1) (h12 : t1 ≤ t2) (h23 : t2 ≤ t3) (h34 : t3 ≤ t4) :
    0 ≤ (profileDurations t0 t1 t2 t3 t4).omp
      ∧ 0 ≤ (profileDurations t0 t1 t2 t3 t4).total
      ∧ 0 ≤ (profileDurations t0 t1 t2 t3 t4).copyIn
      ∧ 0 ≤ (profileDurations t0 t1 t2 t3 t4).kernelExec
      ∧ 0 ≤ (profileDurations t0 t1 t2 t3 t4).copyOut
      ∧ (profileDurations t0 t1 t2 t3 t4).copyIn
          + (profileDurations t0 t1 t2 t3 t4).kernelExec
          + (profileDurations t0 t1 t2 t3 t4).copyOut
        ≤ (profileDurations t0 t1 t2 t3 t4).total := by
  refine ⟨?_, ?_, ?_, ?_, ?_, ?_⟩ <;> simp [profileDurations] <;> omega

theorem claim_C6_durations_witness :
    (0 : ℤ) ≤ 1 ∧ (1 : ℤ) ≤ 3 ∧ (3 : ℤ) ≤ 6 ∧ (6 : ℤ) ≤ 10 ∧
      (0 ≤ (profileDurations 0 1 3 6 10).omp
        ∧ 0 ≤ (profileDurations 0 1 3 6 10).total
        ∧ 0 ≤ (profileDurations 0 1 3 6 10).copyIn
        ∧ 0 ≤ (profileDurations 0 1 3 6 10).kernelExec
        ∧ 0 ≤ (profileDurations 0 1 3 6 10).copyOut
        ∧ (profileDurations 0 1 3 6 10).copyIn
            + (profileDurations 0 1 3 6 10).kernelExec
            + (profileDurations 0 1 3 6 10).copyOut
          ≤ (profileDurations 0 1 3 6 10).total) :=
  ⟨by norm_num, by norm_num, by norm_num, by norm_num,
    claim_C6_durations 0 1 3 6 10 (by norm_num) (by norm_num) (by norm_num) (by norm_num)⟩

/-- C7: for every nonnegative element count and every pair of time points with
the end not before the start, bandwidth returns a nonnegative (rational, hence
finite) value, and when the elapsed duration is zero it returns 0 instead of
dividing by zero. -/
theorem claim_C7_bandwidth_safe (n t0 t1 : ℤ) (hn : 0 ≤ n) (ht : t0 ≤ t1) :
    0 ≤ bandwidth n t0 t1 ∧ (t1 - t0 = 0 → bandwidth n t0 t1 = 0) := by
  constructor
  · rw [bandwidth]
    split_ifs with h
    · exact le_refl 0
    · have hnq : (0 : ℚ) ≤ (n : ℚ) := by exact_mod_cast hn
      have hdt : (0 : ℚ) ≤ ((t1 - t0 : ℤ) : ℚ) := by
        have : (0 : ℤ) ≤ t1 - t0 := by omega
        exact_mod_cast this
      positivity
  · intro h
    rw [bandwidth, if_pos h]

theorem claim_C7_bandwidth_safe_witness :
    (0 : ℤ) ≤ 5 ∧ (0 : ℤ) ≤ 0 ∧
      (0 ≤ bandwidth 5 0 0 ∧ ((0 : ℤ) - 0 = 0 → bandwidth 5 0 0 = 0)) :=
  ⟨by norm_num, le_refl 0, claim_C7_bandwidth_safe 5 0 0 (by norm_num) (le_refl 0)⟩

/-- C8: for every input vector whose length is a positive multiple of G = 128
and every permutation of its entries, the result of the reduce kernel on the
permuted vector differs from the result on the original vector by no more than
the validation tolerance (in the exact-arithmetic model the two results are
equal, so the difference is 0). -/
theorem claim_C8_permutation (n : ℕ) (σ : Equiv.Perm (Fin n)) (a : ℕ → ℚ)
    (hn : 0 < n) (hd : 128 ∣ n) :
    |reduceKernel (permuteInput n σ a) n 0 - reduceKernel a n 0| ≤ tolerance := by
  rw [reduceKernel_eq_sum _ n hd, reduceKernel_eq_sum a n hd, sum_permuteInput,
    sub_self, abs_zero]
  norm_num [tolerance]

theorem claim_C8_permutation_witness :
    0 < 128 ∧ 128 ∣ 128 ∧
      |reduceKernel (permuteInput 128 (Equiv.refl (Fin 128)) (fun i => (i : ℚ))) 128 0
          - reduceKernel (fun i => (i : ℚ)) 128 0| ≤ tolerance :=
  ⟨by norm_num, by norm_num,
    claim_C8_permutation 128 (Equiv.refl (Fin 128)) (fun i => (i : ℚ))
      (by norm_num) (by norm_num)⟩

/-- C9: main exits with code 0 exactly when a platform was found, the program
built, and the benchmarking body completed cleanly; every other run exits with
code 1 and at least one diagnostic message; on a build failure the build log of
every candidate device is among the printed messages. -/
theorem claim_C9_exit_contract (e : MainEnv) :
    ((mainRun e).1 = 0
        ↔ e.numPlatforms ≠ 0 ∧ e.buildOk = true ∧ e.runOutcome = RunOutcome.ok)
      ∧ ((mainRun e).1 ≠ 0 → (mainRun e).1 = 1 ∧ (mainRun e).2 ≠ [])
      ∧ (e.numPlatforms ≠ 0 → e.buildOk = false →
          ∀ s ∈ e.buildLogs, s ∈ (mainRun e).2) := by
  unfold mainRun
  by_cases hp : e.numPlatforms = 0
  · simp [hp]
  · by_cases hb : e.buildOk
    · cases hro : e.runOutcome <;> simp [hp, hb, hro]
    · simp [hp, hb]
      intro s hs
      exact Or.inl hs

theorem claim_C9_exit_contract_witness :
    ((mainRun ⟨1, ["build log"], true, "op", 0, RunOutcome.ok⟩).1 = 0
        ↔ (1 : ℕ) ≠ 0 ∧ true = true
            ∧ (RunOutcome.ok : RunOutcome) = RunOutcome.ok)
      ∧ ((mainRun ⟨1, ["build log"], true, "op", 0, RunOutcome.ok⟩).1 ≠ 0 →
          (mainRun ⟨1, ["build log"], true, "op", 0, RunOutcome.ok⟩).1 = 1
            ∧ (mainRun ⟨1, ["build log"], true, "op", 0, RunOutcome.ok⟩).2 ≠ [])
      ∧ ((1 : ℕ) ≠ 0 → true = false →
          ∀ s ∈ ["build log"],
            s ∈ (mainRun ⟨1, ["build log"], true, "op", 0, RunOutcome.ok⟩).2) :=
  claim_C9_exit_contract ⟨1, ["build log"], true, "op", 0, RunOutcome.ok⟩

/-- C10: the cross-group combine overwrites only slot 0 of the partial-sums
buffer; every other slot k with 1 ≤ k < N / G still holds the partial sum
published by work-group k. -/
theorem claim_C10_frame (a : ℕ → ℚ) (n k : ℕ) (h1 : 1 ≤ k) (h2 : k < n / 128) :
    reduceKernel a n k = groupSum a k := by
  have hk : k ≠ 0 := by omega
  simp [reduceKernel, combine, hk]

theorem claim_C10_frame_witness :
    1 ≤ 1 ∧ 1 < 256 / 128 ∧
      reduceKernel (fun i => (i : ℚ)) 256 1 = groupSum (fun i => (i : ℚ)) 1 :=
  ⟨le_refl 1, by norm_num,
    claim_C10_frame (fun i => (i : ℚ)) 256 1 (le_refl 1) (by norm_num)⟩

end ReduceScan
